import Mathlib

/-!
Shallow embedding of the Mali fbdev mouse backend
(src/video/mali-fbdev/SDL_malimouse.c) and proofs about its cursor
lifecycle operations.

Modelling choices:
* Heap allocation is explicit: an `AllocState` hands out fresh ids in
  order and records, per live allocation, its byte size.  An allocation
  oracle `ok : Nat → Bool` says whether the `SDL_calloc`/`SDL_malloc`
  call that receives id `i` succeeds, which lets us inject failures at
  each allocation point of `MALI_CreateCursor`.
* External SDL calls (SDL_OutOfMemory, SDL_SetError, SDL_PremultiplyAlpha,
  SDL_SendMouseMotion, SDL_WarpMouseInWindow, SDL_ShowCursor) are recorded
  as entries of an effect trace; the value returned by the external
  SDL_ShowCursor is a parameter of the environment.
* C `int` dimensions and sizes of valid SDL surfaces are non-negative and
  small; they are modelled as `Nat`.  Coordinates and hotspots, which may
  be negative, are modelled as `Int`.  `SDL_SetError` returns -1.
-/

namespace MaliMouse

/-- Heap model: `nextId` is the next allocation id to hand out, `live`
lists the currently live allocations as (id, byte size) pairs, and
`freed` is the log of every `SDL_free` performed, in order. -/
structure AllocState where
  nextId : Nat
  live : List (Nat × Nat)
  freed : List Nat
deriving DecidableEq, Repr

/-- `SDL_calloc`/`SDL_malloc`: the oracle `ok` decides whether the call
that receives id `st.nextId` succeeds.  The id counter advances either
way, so every allocation attempt has a distinct index. -/
def AllocState.malloc (st : AllocState) (ok : Nat → Bool) (size : Nat) :
    Option Nat × AllocState :=
  if ok st.nextId then
    (some st.nextId, ⟨st.nextId + 1, (st.nextId, size) :: st.live, st.freed⟩)
  else
    (none, ⟨st.nextId + 1, st.live, st.freed⟩)

/-- `SDL_free`: drops the allocation from the live list and appends the
id to the free log. -/
def AllocState.free (st : AllocState) (id : Nat) : AllocState :=
  ⟨st.nextId, st.live.filter (fun p => p.1 != id), st.freed ++ [id]⟩

/-- A well-formed heap: every live allocation id was handed out in the
past, i.e. is below the id counter. -/
def AllocState.WF (st : AllocState) : Prop :=
  ∀ p ∈ st.live, p.1 < st.nextId

instance (st : AllocState) : Decidable st.WF := by
  unfold AllocState.WF; infer_instance

/-- An SDL_Surface, as consumed by MALI_CreateCursor: dimensions, pixel
format id, an abstract id standing for the pixels pointer, and row pitch. -/
structure Surface where
  w : Nat
  h : Nat
  format : Nat
  pixels : Nat
  pitch : Nat
deriving DecidableEq, Repr

/-- MALI_CursorData (SDL_malimouse.h): the backend-private cursor image.
`id` is the allocation id of the struct itself; `buffer` is the
allocation id of the pixel buffer, when allocated. -/
structure MALI_CursorData where
  id : Nat
  hot_x : Int
  hot_y : Int
  w : Nat
  h : Nat
  buffer : Option Nat
  buffer_pitch : Nat
  buffer_size : Nat
deriving DecidableEq, Repr

/-- An SDL_Cursor handle: the allocation id of the struct and its
`driverdata` pointer (null or a MALI_CursorData). -/
structure SDL_Cursor where
  id : Nat
  driverdata : Option MALI_CursorData
deriving DecidableEq, Repr

/-- The fields of SDL_Mouse that this backend reads: the focused window
(an abstract id), the current cursor (an abstract id), the mouse id and the
recorded logical position. -/
structure SDL_Mouse where
  focus : Option Nat
  cur_cursor : Option Nat
  mouseID : Nat
  x : Int
  y : Int
deriving DecidableEq, Repr

/-- One entry of the effect trace: a call into the host SDL from this
backend, with its arguments. -/
inductive Effect where
  | outOfMemory
  | setError (msg : String)
  | premultiplyAlpha (w h srcFormat srcPixels srcPitch dstFormat dstBuffer dstPitch : Nat)
  | sendMouseMotion (window mouseID relative : Nat) (x y : Int)
  | warpMouseInWindow (window : Nat) (x y : Int)
  | sdlShowCursor (toggle : Nat)
deriving DecidableEq, Repr

/-- Whether an effect is a motion-event emission (SDL_SendMouseMotion). -/
def Effect.isMotion : Effect → Bool
  | Effect.sendMouseMotion _ _ _ _ _ => true
  | _ => false

/-- SDL_PIXELFORMAT_ARGB8888 (SDL_PIXELTYPE_PACKED32, ARGB order,
8888 layout, 32 bits, 4 bytes per pixel). -/
def SDL_PIXELFORMAT_ARGB8888 : Nat := 0x16362004

/-- MALI_CreateCursor (SDL_malimouse.c lines 95-159).  Allocates the
SDL_Cursor with SDL_calloc, the MALI_CursorData with SDL_calloc, fills
hot_x/hot_y/w/h, sets buffer_pitch to surface->w and buffer_size to
surface->w * surface->h * 4, allocates the pixel buffer with SDL_malloc,
calls SDL_PremultiplyAlpha into it with destination pitch surface->w * 4,
and attaches the driverdata.  On any allocation failure it calls
SDL_OutOfMemory and runs the cleanup block, which frees the pieces
already allocated (buffer if non-null, then curdata, then cursor) and
returns NULL.  `szCursor` and `szCurdata` are the abstract byte sizes of
the two structs. -/
def MALI_CreateCursor (surface : Surface) (hot_x hot_y : Int)
    (szCursor szCurdata : Nat) (ok : Nat → Bool) (st : AllocState) :
    Option SDL_Cursor × AllocState × List Effect :=
  match AllocState.malloc st ok szCursor with
  | (none, st1) =>
    -- cleanup with ret = NULL, curdata = NULL, cursor = NULL: nothing to free
    (none, st1, [Effect.outOfMemory])
  | (some cursorId, st1) =>
    match AllocState.malloc st1 ok szCurdata with
    | (none, st2) =>
      -- cleanup: curdata = NULL, cursor non-null, so only the cursor is freed
      (none, AllocState.free st2 cursorId, [Effect.outOfMemory])
    | (some curdataId, st2) =>
      match AllocState.malloc st2 ok (surface.w * surface.h * 4) with
      | (none, st3) =>
        -- cleanup: curdata non-null with buffer = NULL, then cursor
        (none, AllocState.free (AllocState.free st3 curdataId) cursorId,
         [Effect.outOfMemory])
      | (some bufferId, st3) =>
        (some ⟨cursorId,
               some ⟨curdataId, hot_x, hot_y, surface.w, surface.h,
                     some bufferId, surface.w, surface.w * surface.h * 4⟩⟩,
         st3,
         [Effect.premultiplyAlpha surface.w surface.h surface.format
            surface.pixels surface.pitch SDL_PIXELFORMAT_ARGB8888
            bufferId (surface.w * 4)])

/-- MALI_FreeCursor (SDL_malimouse.c lines 71-90).  On a null cursor it
does nothing.  Otherwise it reads `curdata = cursor->driverdata` and
immediately dereferences it to test `curdata->buffer`: a handle with a
null driverdata would fault, which the model records as `none`.  With a
driverdata present it frees the buffer when non-null, then the
driverdata struct, then the cursor struct. -/
def MALI_FreeCursor (cursor : Option SDL_Cursor) (st : AllocState) :
    Option AllocState :=
  match cursor with
  | none => some st
  | some c =>
    match c.driverdata with
    | none => none
    | some curdata =>
      let st1 := match curdata.buffer with
        | some bufferId => AllocState.free st bufferId
        | none => st
      -- `if (cursor->driverdata)` holds in this branch
      let st2 := AllocState.free st1 curdata.id
      some (AllocState.free st2 c.id)

/-- The environment read by MALI_ShowCursor: the SDL_Mouse (null when no
mouse subsystem exists), SDL_GetDisplayForWindow as an optional map from
window ids to display ids, and the value the external SDL_ShowCursor
call returns for a given toggle argument. -/
structure ShowEnv where
  mouse : Option SDL_Mouse
  displayForWindow : Nat → Option Nat
  sdlShowCursorRet : Nat → Int

/-- MALI_ShowCursor (SDL_malimouse.c lines 162-208).  Fails with
SDL_SetError("No mouse.") when SDL_GetMouse() is null.  When the mouse
has no focused window or the cursor argument is null, it does nothing
and returns the initial ret = 0.  Otherwise it resolves the display for
the focused window; when resolution fails it does nothing (ret stays 0);
when it succeeds it calls the external SDL_ShowCursor(1) (the `else`
branch calling SDL_ShowCursor(0) is unreachable there, since the cursor
is known non-null, but is kept in the embedding). -/
def MALI_ShowCursor (env : ShowEnv) (cursor : Option SDL_Cursor) :
    Int × List Effect :=
  match env.mouse with
  | none => (-1, [Effect.setError "No mouse."])
  | some mouse =>
    match mouse.focus, cursor with
    | some window, some _ =>
      match env.displayForWindow window with
      | some _ =>
        match cursor with
        | some _ => (env.sdlShowCursorRet 1, [Effect.sdlShowCursor 1])
        | none => (env.sdlShowCursorRet 0, [Effect.sdlShowCursor 0])
      | none => (0, [])
    | _, _ => (0, [])

/-- MALI_WarpMouseGlobal (SDL_malimouse.c lines 219-238).  When the
mouse exists and has both a current cursor and a focused window, it
calls SDL_SendMouseMotion(mouse->focus, mouse->mouseID, 0, x, y) and
then SDL_WarpMouseInWindow(window, x, y), and returns 0; otherwise it
returns SDL_SetError("No mouse or current cursor."). -/
def MALI_WarpMouseGlobal (mouse : Option SDL_Mouse) (x y : Int) :
    Int × List Effect :=
  match mouse with
  | some m =>
    match m.cur_cursor, m.focus with
    | some _, some window =>
      (0, [Effect.sendMouseMotion window m.mouseID 0 x y,
           Effect.warpMouseInWindow window x y])
    | _, _ => (-1, [Effect.setError "No mouse or current cursor."])
  | none => (-1, [Effect.setError "No mouse or current cursor."])

/-- MALI_WarpMouse (SDL_malimouse.c lines 211-216): delegates to
MALI_WarpMouseGlobal(x, y), ignoring the window argument and the
return value. -/
def MALI_WarpMouse (mouse : Option SDL_Mouse) (_window : Nat) (x y : Int) :
    List Effect :=
  (MALI_WarpMouseGlobal mouse x y).2

/-- MALI_MoveCursor (SDL_malimouse.c lines 264-278).  The body only
reads the mouse state; the SDL_WarpMouseInWindow call is commented out
in the source, so every branch produces no effect. -/
def MALI_MoveCursor (mouse : Option SDL_Mouse) (_cursor : Option SDL_Cursor) :
    List Effect :=
  match mouse with
  | some m =>
    match m.cur_cursor, m.focus with
    | some _, some _ => []
    | _, _ => []
  | none => []

/-- Modelled from the spec: SDL_SendMouseMotion (the host event-delivery
primitive, external to this repository) updates the recorded logical
pointer position of the host to the absolute coordinates of the event; no other
call this backend makes changes the recorded position.  Applying a trace
of effects to the pointer state folds this update over the trace. -/
def applyPointerMotion (mouse : Option SDL_Mouse) (effs : List Effect) :
    Option SDL_Mouse :=
  effs.foldl
    (fun acc e =>
      match acc, e with
      | some m, Effect.sendMouseMotion _ _ _ x y =>
        some ⟨m.focus, m.cur_cursor, m.mouseID, x, y⟩
      | _, _ => acc)
    mouse

/-! ### Helper lemmas: the four execution paths of MALI_CreateCursor -/

lemma filter_live_fresh (st : AllocState) (hwf : st.WF) (i : Nat)
    (hi : st.nextId ≤ i) :
    st.live.filter (fun p => p.1 != i) = st.live := by
  apply List.filter_eq_self.mpr
  intro a ha
  have := hwf a ha
  simp only [bne_iff_ne, ne_eq, decide_eq_true_eq]
  omega

lemma filter_erase_cons (n sz : Nat) (l : List (Nat × Nat)) :
    ((n, sz) :: l).filter (fun p => p.1 != n) =
      l.filter (fun p => p.1 != n) := by
  simp [List.filter_cons]

lemma filter_keep_cons (m n sz : Nat) (l : List (Nat × Nat)) (h : m ≠ n) :
    ((m, sz) :: l).filter (fun p => p.1 != n) =
      (m, sz) :: l.filter (fun p => p.1 != n) := by
  simp [List.filter_cons, bne_iff_ne, h]

lemma createCursor_fail1 (surface : Surface) (hot_x hot_y : Int)
    (szCursor szCurdata : Nat) (ok : Nat → Bool) (st : AllocState)
    (h1 : ok st.nextId = false) :
    MALI_CreateCursor surface hot_x hot_y szCursor szCurdata ok st =
      (none, ⟨st.nextId + 1, st.live, st.freed⟩, [Effect.outOfMemory]) := by
  simp [MALI_CreateCursor, AllocState.malloc, h1]

lemma createCursor_fail2 (surface : Surface) (hot_x hot_y : Int)
    (szCursor szCurdata : Nat) (ok : Nat → Bool) (st : AllocState)
    (h1 : ok st.nextId = true) (h2 : ok (st.nextId + 1) = false) :
    MALI_CreateCursor surface hot_x hot_y szCursor szCurdata ok st =
      (none,
       ⟨st.nextId + 2,
        ((st.nextId, szCursor) :: st.live).filter (fun p => p.1 != st.nextId),
        st.freed ++ [st.nextId]⟩,
       [Effect.outOfMemory]) := by
  simp [MALI_CreateCursor, AllocState.malloc, AllocState.free, h1, h2]

lemma createCursor_fail3 (surface : Surface) (hot_x hot_y : Int)
    (szCursor szCurdata : Nat) (ok : Nat → Bool) (st : AllocState)
    (h1 : ok st.nextId = true) (h2 : ok (st.nextId + 1) = true)
    (h3 : ok (st.nextId + 2) = false) :
    MALI_CreateCursor surface hot_x hot_y szCursor szCurdata ok st =
      (none,
       ⟨st.nextId + 3,
        (((st.nextId + 1, szCurdata) :: (st.nextId, szCursor) :: st.live).filter
            (fun p => p.1 != st.nextId + 1)).filter (fun p => p.1 != st.nextId),
        st.freed ++ [st.nextId + 1] ++ [st.nextId]⟩,
       [Effect.outOfMemory]) := by
  simp [MALI_CreateCursor, AllocState.malloc, AllocState.free, h1, h2, h3]

lemma createCursor_succ (surface : Surface) (hot_x hot_y : Int)
    (szCursor szCurdata : Nat) (ok : Nat → Bool) (st : AllocState)
    (h1 : ok st.nextId = true) (h2 : ok (st.nextId + 1) = true)
    (h3 : ok (st.nextId + 2) = true) :
    MALI_CreateCursor surface hot_x hot_y szCursor szCurdata ok st =
      (some ⟨st.nextId,
             some ⟨st.nextId + 1, hot_x, hot_y, surface.w, surface.h,
                   some (st.nextId + 2), surface.w,
                   surface.w * surface.h * 4⟩⟩,
       ⟨st.nextId + 3,
        (st.nextId + 2, surface.w * surface.h * 4) ::
          (st.nextId + 1, szCurdata) :: (st.nextId, szCursor) :: st.live,
        st.freed⟩,
       [Effect.premultiplyAlpha surface.w surface.h surface.format
          surface.pixels surface.pitch SDL_PIXELFORMAT_ARGB8888
          (st.nextId + 2) (surface.w * 4)]) := by
  simp [MALI_CreateCursor, AllocState.malloc, h1, h2, h3]

lemma createCursor_some_ok (surface : Surface) (hot_x hot_y : Int)
    (szCursor szCurdata : Nat) (ok : Nat → Bool) (st : AllocState)
    (hsucc : (MALI_CreateCursor surface hot_x hot_y szCursor szCurdata ok st).1.isSome) :
    ok st.nextId = true ∧ ok (st.nextId + 1) = true ∧ ok (st.nextId + 2) = true := by
  by_cases h1 : ok st.nextId = true
  · by_cases h2 : ok (st.nextId + 1) = true
    · by_cases h3 : ok (st.nextId + 2) = true
      · exact ⟨h1, h2, h3⟩
      · rw [createCursor_fail3 surface hot_x hot_y szCursor szCurdata ok st h1 h2
              (by simpa using h3)] at hsucc
        simp at hsucc
    · rw [createCursor_fail2 surface hot_x hot_y szCursor szCurdata ok st h1
            (by simpa using h2)] at hsucc
      simp at hsucc
  · rw [createCursor_fail1 surface hot_x hot_y szCursor szCurdata ok st
          (by simpa using h1)] at hsucc
    simp at hsucc

/-- C1: for every allocation failure during MALI_CreateCursor, at any of
its three allocation points (cursor struct, curdata struct, pixel
buffer), the call reports exactly one out-of-memory error, returns NULL,
leaves the set of live allocations exactly as it was before the call (no
leak), and every SDL_free it performed targeted a distinct id allocated
during this very call (no double free, no foreign free). -/
theorem createCursor_alloc_failure_cleanup
    (surface : Surface) (hot_x hot_y : Int) (szCursor szCurdata : Nat)
    (ok : Nat → Bool) (st : AllocState) (hwf : st.WF)
    (hfail : ok st.nextId = false ∨ ok (st.nextId + 1) = false ∨
      ok (st.nextId + 2) = false) :
    (MALI_CreateCursor surface hot_x hot_y szCursor szCurdata ok st).1 = none ∧
    (MALI_CreateCursor surface hot_x hot_y szCursor szCurdata ok st).2.2 =
      [Effect.outOfMemory] ∧
    (MALI_CreateCursor surface hot_x hot_y szCursor szCurdata ok st).2.1.live =
      st.live ∧
    ((MALI_CreateCursor surface hot_x hot_y szCursor szCurdata ok st).2.1.freed.drop
      st.freed.length).Nodup ∧
    ∀ i ∈ (MALI_CreateCursor surface hot_x hot_y szCursor szCurdata ok st).2.1.freed.drop
      st.freed.length, st.nextId ≤ i := by
  by_cases h1 : ok st.nextId = true
  · by_cases h2 : ok (st.nextId + 1) = true
    · by_cases h3 : ok (st.nextId + 2) = true
      · rcases hfail with h | h | h <;> simp [h1, h2, h3] at h
      · rw [createCursor_fail3 surface hot_x hot_y szCursor szCurdata ok st h1 h2
              (by simpa using h3)]
        refine ⟨rfl, rfl, ?_, ?_, ?_⟩
        · rw [filter_erase_cons, filter_keep_cons _ _ _ _ (by omega),
              filter_live_fresh st hwf (st.nextId + 1) (by omega),
              filter_erase_cons, filter_live_fresh st hwf st.nextId (by omega)]
        · rw [List.append_assoc, List.drop_left]
          have hne : st.nextId + 1 ≠ st.nextId := by omega
          simp [hne]
        · rw [List.append_assoc, List.drop_left]
          intro i hi
          simp at hi
          omega
    · rw [createCursor_fail2 surface hot_x hot_y szCursor szCurdata ok st h1
            (by simpa using h2)]
      refine ⟨rfl, rfl, ?_, ?_, ?_⟩
      · rw [filter_erase_cons, filter_live_fresh st hwf st.nextId (by omega)]
      · rw [List.drop_left]
        simp
      · rw [List.drop_left]
        intro i hi
        simp at hi
        omega
  · rw [createCursor_fail1 surface hot_x hot_y szCursor szCurdata ok st
          (by simpa using h1)]
    refine ⟨rfl, rfl, rfl, ?_, ?_⟩
    · simp
    · intro i hi
      simp at hi

/-- C1 witness: with an allocator that fails on the second allocation,
starting from a well-formed heap holding one foreign allocation,
MALI_CreateCursor reports OutOfMemory, returns NULL and leaks nothing. -/
theorem createCursor_alloc_failure_cleanup_witness :
    (MALI_CreateCursor ⟨4, 4, 0, 0, 16⟩ 1 2 1 1 (fun i => i != 2)
        ⟨1, [(0, 8)], []⟩).1 = none ∧
    (MALI_CreateCursor ⟨4, 4, 0, 0, 16⟩ 1 2 1 1 (fun i => i != 2)
        ⟨1, [(0, 8)], []⟩).2.2 = [Effect.outOfMemory] ∧
    (MALI_CreateCursor ⟨4, 4, 0, 0, 16⟩ 1 2 1 1 (fun i => i != 2)
        ⟨1, [(0, 8)], []⟩).2.1.live = [(0, 8)] ∧
    ((MALI_CreateCursor ⟨4, 4, 0, 0, 16⟩ 1 2 1 1 (fun i => i != 2)
        ⟨1, [(0, 8)], []⟩).2.1.freed.drop 0).Nodup ∧
    ∀ i ∈ (MALI_CreateCursor ⟨4, 4, 0, 0, 16⟩ 1 2 1 1 (fun i => i != 2)
        ⟨1, [(0, 8)], []⟩).2.1.freed.drop 0, 1 ≤ i :=
  createCursor_alloc_failure_cleanup ⟨4, 4, 0, 0, 16⟩ 1 2 1 1
    (fun i => i != 2) ⟨1, [(0, 8)], []⟩ (by decide) (by decide)

lemma not_mem_filter_ne (i s : Nat) (l : List (Nat × Nat)) :
    (i, s) ∉ l.filter (fun p => p.1 != i) := by
  intro h
  have := List.of_mem_filter h
  simp at this

/-- C6: a successful MALI_CreateCursor produces a cursor whose
driverdata records buffer_size = surface.w * surface.h * 4 and whose
pixel buffer is a live allocation of exactly that many bytes. -/
theorem createCursor_buffer_size_invariant
    (surface : Surface) (hot_x hot_y : Int) (szCursor szCurdata : Nat)
    (ok : Nat → Bool) (st : AllocState) (c : SDL_Cursor)
    (hsucc : (MALI_CreateCursor surface hot_x hot_y szCursor szCurdata ok st).1 =
      some c) :
    ∃ cd bufferId, c.driverdata = some cd ∧ cd.buffer = some bufferId ∧
      cd.buffer_size = surface.w * surface.h * 4 ∧
      (bufferId, surface.w * surface.h * 4) ∈
        (MALI_CreateCursor surface hot_x hot_y szCursor szCurdata ok st).2.1.live := by
  obtain ⟨h1, h2, h3⟩ := createCursor_some_ok surface hot_x hot_y szCursor szCurdata
    ok st (by rw [hsucc]; rfl)
  rw [createCursor_succ surface hot_x hot_y szCursor szCurdata ok st h1 h2 h3]
    at hsucc ⊢
  simp only [Option.some.injEq] at hsucc
  subst hsucc
  exact ⟨_, st.nextId + 2, rfl, rfl, rfl, List.mem_cons_self _ _⟩

/-- C6 witness: creating a cursor from a 2x3 surface on an empty heap
yields a buffer of 2 * 3 * 4 = 24 bytes. -/
theorem createCursor_buffer_size_invariant_witness :
    ∃ cd bufferId,
      (⟨0, some ⟨1, 1, 2, 2, 3, some 2, 2, 24⟩⟩ : SDL_Cursor).driverdata =
        some cd ∧
      cd.buffer = some bufferId ∧
      cd.buffer_size = 2 * 3 * 4 ∧
      (bufferId, 2 * 3 * 4) ∈
        (MALI_CreateCursor ⟨2, 3, 5, 7, 11⟩ 1 2 1 1 (fun _ => true)
          ⟨0, [], []⟩).2.1.live :=
  createCursor_buffer_size_invariant ⟨2, 3, 5, 7, 11⟩ 1 2 1 1 (fun _ => true)
    ⟨0, [], []⟩ ⟨0, some ⟨1, 1, 2, 2, 3, some 2, 2, 24⟩⟩ rfl

/-- C10: every cursor returned successfully by MALI_CreateCursor has a
non-null driverdata and a non-null pixel buffer, with hot_x/hot_y equal
to the arguments and w/h equal to the surface dimensions; consequently
MALI_FreeCursor on such a handle never faults. -/
theorem createCursor_success_handle_invariant
    (surface : Surface) (hot_x hot_y : Int) (szCursor szCurdata : Nat)
    (ok : Nat → Bool) (st : AllocState) (c : SDL_Cursor)
    (hsucc : (MALI_CreateCursor surface hot_x hot_y szCursor szCurdata ok st).1 =
      some c) :
    ∃ cd, c.driverdata = some cd ∧ cd.buffer.isSome = true ∧
      cd.hot_x = hot_x ∧ cd.hot_y = hot_y ∧
      cd.w = surface.w ∧ cd.h = surface.h ∧
      ∀ st2 : AllocState, (MALI_FreeCursor (some c) st2).isSome = true := by
  obtain ⟨h1, h2, h3⟩ := createCursor_some_ok surface hot_x hot_y szCursor szCurdata
    ok st (by rw [hsucc]; rfl)
  rw [createCursor_succ surface hot_x hot_y szCursor szCurdata ok st h1 h2 h3]
    at hsucc
  simp only [Option.some.injEq] at hsucc
  subst hsucc
  exact ⟨_, rfl, rfl, rfl, rfl, rfl, rfl, fun st2 => rfl⟩

/-- C10 witness: a concrete successful creation, whose handle satisfies
the invariant and can be freed without fault from any heap. -/
theorem createCursor_success_handle_invariant_witness :
    ∃ cd,
      (⟨0, some ⟨1, 1, 2, 2, 3, some 2, 2, 24⟩⟩ : SDL_Cursor).driverdata =
        some cd ∧
      cd.buffer.isSome = true ∧ cd.hot_x = 1 ∧ cd.hot_y = 2 ∧
      cd.w = 2 ∧ cd.h = 3 ∧
      ∀ st2 : AllocState,
        (MALI_FreeCursor (some ⟨0, some ⟨1, 1, 2, 2, 3, some 2, 2, 24⟩⟩)
          st2).isSome = true :=
  createCursor_success_handle_invariant ⟨2, 3, 5, 7, 11⟩ 1 2 1 1 (fun _ => true)
    ⟨0, [], []⟩ ⟨0, some ⟨1, 1, 2, 2, 3, some 2, 2, 24⟩⟩ rfl

/-- C7 counterexample: on a successful creation from a 2-pixel-wide
surface the recorded buffer_pitch is 2 — the width in pixels — and not
2 * 4 = 8 bytes, contradicting the claim that the recorded row pitch
equals w * 4. -/
theorem createCursor_recorded_pitch_counterexample :
    ((MALI_CreateCursor ⟨2, 2, 5, 7, 8⟩ 0 0 1 1 (fun _ => true)
        ⟨0, [], []⟩).1.map (fun c => c.driverdata.map
          (fun cd => cd.buffer_pitch))) = some (some 2) ∧
      (2 : Nat) ≠ 2 * 4 := by decide

/-- C7 (amended): after a successful MALI_CreateCursor the recorded
buffer_pitch equals surface.w — the width in pixels, not in bytes —
while the destination pitch passed to SDL_PremultiplyAlpha for the
conversion into the buffer is surface.w * 4 bytes. -/
theorem createCursor_pitch_fields
    (surface : Surface) (hot_x hot_y : Int) (szCursor szCurdata : Nat)
    (ok : Nat → Bool) (st : AllocState) (c : SDL_Cursor)
    (hsucc : (MALI_CreateCursor surface hot_x hot_y szCursor szCurdata ok st).1 =
      some c) :
    (∃ cd, c.driverdata = some cd ∧ cd.buffer_pitch = surface.w) ∧
    ∃ bufferId,
      (MALI_CreateCursor surface hot_x hot_y szCursor szCurdata ok st).2.2 =
        [Effect.premultiplyAlpha surface.w surface.h surface.format
          surface.pixels surface.pitch SDL_PIXELFORMAT_ARGB8888
          bufferId (surface.w * 4)] := by
  obtain ⟨h1, h2, h3⟩ := createCursor_some_ok surface hot_x hot_y szCursor szCurdata
    ok st (by rw [hsucc]; rfl)
  rw [createCursor_succ surface hot_x hot_y szCursor szCurdata ok st h1 h2 h3]
    at hsucc ⊢
  simp only [Option.some.injEq] at hsucc
  subst hsucc
  exact ⟨⟨_, rfl, rfl⟩, st.nextId + 2, rfl⟩

/-- C7 witness: concrete successful creation from a 2x3 surface; the
recorded pitch is the width 2 and the conversion pitch is 2 * 4. -/
theorem createCursor_pitch_fields_witness :
    (∃ cd, (⟨0, some ⟨1, 1, 2, 2, 3, some 2, 2, 24⟩⟩ : SDL_Cursor).driverdata =
        some cd ∧ cd.buffer_pitch = 2) ∧
    ∃ bufferId,
      (MALI_CreateCursor ⟨2, 3, 5, 7, 11⟩ 1 2 1 1 (fun _ => true)
          ⟨0, [], []⟩).2.2 =
        [Effect.premultiplyAlpha 2 3 5 7 11 SDL_PIXELFORMAT_ARGB8888
          bufferId (2 * 4)] :=
  createCursor_pitch_fields ⟨2, 3, 5, 7, 11⟩ 1 2 1 1 (fun _ => true)
    ⟨0, [], []⟩ ⟨0, some ⟨1, 1, 2, 2, 3, some 2, 2, 24⟩⟩ rfl

/-- C8: MALI_FreeCursor on a handle with a driverdata attached — even
one whose pixel buffer was never allocated — does not fault, frees the
buffer (when present), then the driverdata struct, then the cursor
struct, in that order, and afterwards none of the three allocations is
live.  It returns no status and cannot fail. -/
theorem freeCursor_releases_all (c : SDL_Cursor) (cd : MALI_CursorData)
    (st : AllocState) (hdd : c.driverdata = some cd) :
    ∃ st2, MALI_FreeCursor (some c) st = some st2 ∧
      st2.freed = st.freed ++ (cd.buffer.toList ++ [cd.id, c.id]) ∧
      (∀ s, (cd.id, s) ∉ st2.live) ∧
      (∀ s, (c.id, s) ∉ st2.live) ∧
      (∀ b s, cd.buffer = some b → (b, s) ∉ st2.live) := by
  cases hbuf : cd.buffer with
  | none =>
    refine ⟨AllocState.free (AllocState.free st cd.id) c.id,
      by simp [MALI_FreeCursor, hdd, hbuf], by simp [AllocState.free], ?_, ?_, ?_⟩
    · intro s h
      exact not_mem_filter_ne cd.id s _ (List.mem_of_mem_filter h)
    · intro s h
      exact not_mem_filter_ne c.id s _ h
    · intro b s hb
      simp [hbuf] at hb
  | some bufferId =>
    refine ⟨AllocState.free (AllocState.free (AllocState.free st bufferId) cd.id) c.id,
      by simp [MALI_FreeCursor, hdd, hbuf], by simp [AllocState.free], ?_, ?_, ?_⟩
    · intro s h
      exact not_mem_filter_ne cd.id s _ (List.mem_of_mem_filter h)
    · intro s h
      exact not_mem_filter_ne c.id s _ h
    · intro b s hb h
      cases hb
      exact not_mem_filter_ne bufferId s _
        (List.mem_of_mem_filter (List.mem_of_mem_filter h))

/-- C8 witness: freeing a handle whose buffer allocation never completed
(null buffer) faults nowhere, frees driverdata id 3 then cursor id 5,
and leaves neither live. -/
theorem freeCursor_releases_all_witness :
    ∃ st2,
      MALI_FreeCursor (some ⟨5, some ⟨3, 0, 0, 2, 2, none, 2, 16⟩⟩)
        ⟨6, [(3, 1), (5, 1)], []⟩ = some st2 ∧
      st2.freed = [3, 5] ∧
      (∀ s, ((3 : Nat), s) ∉ st2.live) ∧
      (∀ s, ((5 : Nat), s) ∉ st2.live) ∧
      (∀ b s, (none : Option Nat) = some b → (b, s) ∉ st2.live) :=
  freeCursor_releases_all ⟨5, some ⟨3, 0, 0, 2, 2, none, 2, 16⟩⟩
    ⟨3, 0, 0, 2, 2, none, 2, 16⟩ ⟨6, [(3, 1), (5, 1)], []⟩ rfl

/-- C2: MALI_ShowCursor returns an error (negative status, via
SDL_SetError) exactly when no mouse subsystem exists; with a mouse
present, a null cursor argument, an absent focused window, or an
unresolvable display each yield success (0) with no display binding
performed (empty effect trace).  The hypothesis records that the
external SDL_ShowCursor never returns a negative value. -/
theorem showCursor_error_iff_no_mouse (env : ShowEnv) (cursor : Option SDL_Cursor)
    (hret : ∀ t, 0 ≤ env.sdlShowCursorRet t) :
    ((MALI_ShowCursor env cursor).1 < 0 ↔ env.mouse = none) ∧
    (env.mouse.isSome = true → cursor = none →
      MALI_ShowCursor env cursor = (0, [])) ∧
    (∀ m, env.mouse = some m → m.focus = none →
      MALI_ShowCursor env cursor = (0, [])) ∧
    (∀ m w, env.mouse = some m → m.focus = some w →
      env.displayForWindow w = none →
      MALI_ShowCursor env cursor = (0, [])) := by
  refine ⟨?_, ?_, ?_, ?_⟩
  · cases hm : env.mouse with
    | none => simp [MALI_ShowCursor, hm]
    | some m =>
      cases hf : m.focus with
      | none => simp [MALI_ShowCursor, hm, hf]
      | some w =>
        cases hc : cursor with
        | none => simp [MALI_ShowCursor, hm, hf, hc]
        | some cur =>
          cases hd : env.displayForWindow w with
          | none => simp [MALI_ShowCursor, hm, hf, hc, hd]
          | some d =>
            simp [MALI_ShowCursor, hm, hf, hc, hd, not_lt.mpr (hret 1)]
  · intro hsome hcn
    subst hcn
    cases hm : env.mouse with
    | none => rw [hm] at hsome; cases hsome
    | some m =>
      cases hf : m.focus with
      | none => simp [MALI_ShowCursor, hm, hf]
      | some w => simp [MALI_ShowCursor, hm, hf]
  · intro m hm hf
    cases cursor with
    | none => simp [MALI_ShowCursor, hm, hf]
    | some cur => simp [MALI_ShowCursor, hm, hf]
  · intro m w hm hf hd
    cases cursor with
    | none => simp [MALI_ShowCursor, hm, hf]
    | some cur => simp [MALI_ShowCursor, hm, hf, hd]

/-- C2 witness: with a mouse focused on window 1, a resolvable display
and a non-error external SDL_ShowCursor, MALI_ShowCursor on a null
cursor succeeds with no binding and is not an error. -/
theorem showCursor_error_iff_no_mouse_witness :
    ((MALI_ShowCursor ⟨some ⟨some 1, some 2, 0, 0, 0⟩, fun _ => some 0,
        fun _ => 1⟩ none).1 < 0 ↔
      (⟨some ⟨some 1, some 2, 0, 0, 0⟩, fun _ => some 0,
        fun _ => 1⟩ : ShowEnv).mouse = none) ∧
    ((⟨some ⟨some 1, some 2, 0, 0, 0⟩, fun _ => some 0,
        fun _ => 1⟩ : ShowEnv).mouse.isSome = true →
      (none : Option SDL_Cursor) = none →
      MALI_ShowCursor ⟨some ⟨some 1, some 2, 0, 0, 0⟩, fun _ => some 0,
        fun _ => 1⟩ none = (0, [])) ∧
    (∀ m, (⟨some ⟨some 1, some 2, 0, 0, 0⟩, fun _ => some 0,
        fun _ => 1⟩ : ShowEnv).mouse = some m → m.focus = none →
      MALI_ShowCursor ⟨some ⟨some 1, some 2, 0, 0, 0⟩, fun _ => some 0,
        fun _ => 1⟩ none = (0, [])) ∧
    (∀ m w, (⟨some ⟨some 1, some 2, 0, 0, 0⟩, fun _ => some 0,
        fun _ => 1⟩ : ShowEnv).mouse = some m → m.focus = some w →
      (⟨some ⟨some 1, some 2, 0, 0, 0⟩, fun _ => some 0,
        fun _ => 1⟩ : ShowEnv).displayForWindow w = none →
      MALI_ShowCursor ⟨some ⟨some 1, some 2, 0, 0, 0⟩, fun _ => some 0,
        fun _ => 1⟩ none = (0, [])) :=
  showCursor_error_iff_no_mouse
    ⟨some ⟨some 1, some 2, 0, 0, 0⟩, fun _ => some 0, fun _ => 1⟩ none
    (fun _ => zero_le_one)

/-- C3: MALI_WarpMouseGlobal with no mouse, no current cursor, or no
focused window returns -1 having only called SDL_SetError with
"No mouse or current cursor." — no motion event, no visual move — and
the recorded pointer position is unchanged by its effect trace. -/
theorem warpMouseGlobal_failure_no_action (mouse : Option SDL_Mouse) (x y : Int)
    (hpre : mouse = none ∨
      ∃ m, mouse = some m ∧ (m.cur_cursor = none ∨ m.focus = none)) :
    MALI_WarpMouseGlobal mouse x y =
      (-1, [Effect.setError "No mouse or current cursor."]) ∧
    applyPointerMotion mouse (MALI_WarpMouseGlobal mouse x y).2 = mouse ∧
    (MALI_WarpMouseGlobal mouse x y).2.any Effect.isMotion = false := by
  rcases hpre with hn | ⟨m, hm, hcases⟩
  · subst hn
    exact ⟨rfl, rfl, rfl⟩
  · subst hm
    rcases hcases with hcc | hfoc
    · have he : MALI_WarpMouseGlobal (some m) x y =
          (-1, [Effect.setError "No mouse or current cursor."]) := by
        simp [MALI_WarpMouseGlobal, hcc]
      refine ⟨he, ?_, ?_⟩
      · rw [he]
        rfl
      · rw [he]
        rfl
    · have he : MALI_WarpMouseGlobal (some m) x y =
          (-1, [Effect.setError "No mouse or current cursor."]) := by
        cases hcc : m.cur_cursor <;> simp [MALI_WarpMouseGlobal, hcc, hfoc]
      refine ⟨he, ?_, ?_⟩
      · rw [he]
        rfl
      · rw [he]
        rfl

/-- C3 witness: warping with a mouse that has a focused window but no
current cursor errors out, leaves the recorded position (3, 4) intact
and emits no motion event. -/
theorem warpMouseGlobal_failure_no_action_witness :
    MALI_WarpMouseGlobal (some ⟨some 1, none, 0, 3, 4⟩) 10 20 =
      (-1, [Effect.setError "No mouse or current cursor."]) ∧
    applyPointerMotion (some ⟨some 1, none, 0, 3, 4⟩)
      (MALI_WarpMouseGlobal (some ⟨some 1, none, 0, 3, 4⟩) 10 20).2 =
      some ⟨some 1, none, 0, 3, 4⟩ ∧
    (MALI_WarpMouseGlobal (some ⟨some 1, none, 0, 3, 4⟩) 10 20).2.any
      Effect.isMotion = false :=
  warpMouseGlobal_failure_no_action (some ⟨some 1, none, 0, 3, 4⟩) 10 20
    (Or.inr ⟨⟨some 1, none, 0, 3, 4⟩, rfl, Or.inl rfl⟩)

/-- C4: when the mouse exists with a current cursor and a focused
window, MALI_WarpMouseGlobal performs exactly two external calls, in
order: SDL_SendMouseMotion at the focused window with relative = 0 and
absolute coordinates (x, y), then SDL_WarpMouseInWindow on that window
at (x, y); and it returns 0. -/
theorem warpMouseGlobal_success_order (m : SDL_Mouse) (c w : Nat) (x y : Int)
    (hc : m.cur_cursor = some c) (hf : m.focus = some w) :
    MALI_WarpMouseGlobal (some m) x y =
      (0, [Effect.sendMouseMotion w m.mouseID 0 x y,
           Effect.warpMouseInWindow w x y]) := by
  simp [MALI_WarpMouseGlobal, hc, hf]

/-- C4 witness: a concrete warp to (10, -5) with cursor 4 and focused
window 7 sends the motion event first, then the visual move, and
returns 0. -/
theorem warpMouseGlobal_success_order_witness :
    MALI_WarpMouseGlobal (some ⟨some 7, some 4, 3, 0, 0⟩) 10 (-5) =
      (0, [Effect.sendMouseMotion 7 3 0 10 (-5),
           Effect.warpMouseInWindow 7 10 (-5)]) :=
  warpMouseGlobal_success_order ⟨some 7, some 4, 3, 0, 0⟩ 4 7 10 (-5) rfl rfl

/-- C5: MALI_MoveCursor never emits a motion event, for every mouse
state and every cursor argument: its effect trace contains no
SDL_SendMouseMotion call. -/
theorem moveCursor_never_emits_motion (mouse : Option SDL_Mouse)
    (cursor : Option SDL_Cursor) :
    (MALI_MoveCursor mouse cursor).any Effect.isMotion = false := by
  cases mouse with
  | none => rfl
  | some m =>
    cases hc : m.cur_cursor <;> cases hf : m.focus <;>
      simp [MALI_MoveCursor, hc, hf]

/-- C9: MALI_WarpMouse performs exactly the effects of
MALI_WarpMouseGlobal on the same coordinates, and its window argument
is ignored entirely: any two window arguments give identical results. -/
theorem warpMouse_ignores_window (mouse : Option SDL_Mouse) (w1 w2 : Nat)
    (x y : Int) :
    MALI_WarpMouse mouse w1 x y = (MALI_WarpMouseGlobal mouse x y).2 ∧
    MALI_WarpMouse mouse w1 x y = MALI_WarpMouse mouse w2 x y :=
  ⟨rfl, rfl⟩

end MaliMouse
